import Mathlib

/-!
Formal model of the DL-RAG-Assistant repository core: the RAG question
answering pipeline (rag_system.py), the corpus build pipeline
(build_database.py) and the MCQ quiz generator (mcq_generator.py).
External library capabilities (the text splitter, the FAISS index, the
embedding model and the LLM) are modelled from the specification of the
chunking and search contracts; all control flow and data shaping of the
repository code is translated directly from the Python source.
-/

set_option autoImplicit false

/-- Python slice s[:n]: the first n characters of a string. -/
def pyslice (s : String) (n : Nat) : String :=
  String.mk (s.data.take n)

/-- Python slice s[n:]: the string with its first n characters removed. -/
def pydrop (s : String) (n : Nat) : String :=
  String.mk (s.data.drop n)

/-- Metadata attached by the PDF loader to each page document: the source
file path and the page number, both optional as in the Python dict. -/
structure DocMetadata where
  source : Option String
  page : Option Nat
deriving DecidableEq, Repr

/-- A retrieved document as LangChain hands it to the chain: the page text
and its metadata. Mirrors the Document objects in source_documents. -/
structure RDoc where
  page_content : String
  metadata : DocMetadata
deriving DecidableEq, Repr

/-- One entry of the sources list built by RAGSystem.ask: the dict with
keys content, source and page (rag_system.py lines 113 to 117). -/
structure SourceInfo where
  content : String
  source : String
  page : Option Nat
deriving DecidableEq, Repr

/-- The dict returned by RAGSystem.ask (rag_system.py lines 120 to 124). -/
structure AskResult where
  question : String
  answer : String
  sources : List SourceInfo
deriving DecidableEq, Repr

/-- The value produced by invoking the QA chain: the generated text under
key result and the retrieved documents under key source_documents. -/
structure ChainResult where
  result : String
  source_documents : List RDoc

/-- The QA chain as a capability: a function from the query to the chain
result. The concrete chain built by setup_qa_chain is modelled below. -/
def Chain : Type := String → ChainResult

/-- Error conditions raised by the repository code, one constructor per
distinct raise site or external failure kind named by the spec. -/
inductive RagError where
  /-- The exception raised by ask when qa_chain is None
  (rag_system.py line 105). -/
  | indexNotLoaded : RagError
  /-- The exception raised by load_database when the database path does
  not exist (rag_system.py line 31); carries that path. -/
  | indexNotFound : String → RagError
  /-- The failure of the external index loader on unreadable stored data. -/
  | corruptIndex : RagError
  /-- The exception raised by setup_qa_chain when the API key is absent. -/
  | configurationMissing : RagError
deriving DecidableEq, Repr

/-- The message text of each error, matching the Python f-strings. -/
def RagError.message : RagError → String
  | .indexNotLoaded => "System not initialized! Call initialize() first."
  | .indexNotFound p => "Database not found at " ++ p ++ ". Run build_database.py first!"
  | .corruptIndex => "Corrupt index"
  | .configurationMissing => "OPENAI_API_KEY not found in .env file!"

/-- A persisted vector index: parallel chunk and embedding stores. -/
structure SavedIndex where
  chunkTexts : List String

/-- The mutable state of a RAGSystem object: the database path and the two
fields set to None by the constructor (rag_system.py lines 19 to 23). -/
structure RAGState where
  db_path : String
  vectordb : Option SavedIndex
  qa_chain : Option Chain

/-- The RAGSystem constructor: both vectordb and qa_chain start as None. -/
def mkRAGSystem (db_path : String) : RAGState :=
  { db_path := db_path, vectordb := none, qa_chain := none }

/-- The source_info dict built for one retrieved document inside ask
(rag_system.py lines 113 to 117): content is the page text sliced to 300
characters with an ellipsis appended, source and page come from the
metadata with defaults Unknown and N/A (none models N/A). -/
def mkSourceInfo (doc : RDoc) : SourceInfo :=
  { content := pyslice doc.page_content 300 ++ "..."
    source := doc.metadata.source.getD "Unknown"
    page := doc.metadata.page }

/-- RAGSystem.ask (rag_system.py lines 101 to 124): raises the
not-initialized exception when qa_chain is None, otherwise invokes the
chain and returns the answer with one source entry per retrieved doc. -/
def ask (s : RAGState) (question : String) : Except RagError AskResult :=
  match s.qa_chain with
  | none => .error .indexNotLoaded
  | some chain =>
    let result := chain question
    .ok { question := question
          answer := result.result
          sources := result.source_documents.map mkSourceInfo }

/-- os.path.basename for slash-separated paths, as applied to the source
field by the display layer (app.py line 183): the suffix of the path
after its last slash. -/
def basename (p : String) : String :=
  String.mk ((p.data.reverse.takeWhile (fun c => c ≠ '/')).reverse)

/-- RAGSystem.load_database (rag_system.py lines 28 to 39), with the file
system abstracted as an existence predicate and the external FAISS loader
abstracted as a fallible load capability. Returns the state after the call
together with the outcome: on a missing path the exception fires before
any assignment, so the state is returned unchanged. -/
def load_database (fs : String → Bool) (loadIdx : String → Except RagError SavedIndex)
    (s : RAGState) : RAGState × Except RagError Unit :=
  if fs s.db_path then
    match loadIdx s.db_path with
    | .ok idx => ({ s with vectordb := some idx }, .ok ())
    | .error e => (s, .error e)
  else
    (s, .error (.indexNotFound s.db_path))

/-- One page of a loaded document: its 1-based page number and text. -/
structure Page where
  page_number : Nat
  text : String
deriving DecidableEq, Repr

/-- A loaded PDF document: the source path and its ordered pages. -/
structure Document where
  source : String
  pages : List Page
deriving DecidableEq, Repr

/-- A chunk as produced by the splitter: its text plus the source and page
tags inherited from the page it was cut from. -/
structure Chunk where
  text : String
  source : String
  page : Nat
deriving DecidableEq, Repr

/-- Modelled from the spec: the sliding pass of the chunker over one page
text. The splitter itself (RecursiveCharacterTextSplitter, invoked with
chunk_size 1000 and chunk_overlap 200 in build_database.py lines 48 to 52)
is external library code, so its contract is taken from the spec: a window
of the given size slides with the given stride; the chunk that reaches the
end of the text is the last one. Fuel bounds the recursion. -/
def slideFrom (window stride : Nat) (text : String) (start fuel : Nat) : List String :=
  match fuel with
  | 0 => []
  | fuel + 1 =>
    let chunk := pyslice (pydrop text start) window
    if start + window < text.length then
      chunk :: slideFrom window stride text (start + stride) fuel
    else
      [chunk]

/-- Modelled from the spec: chunking one page text with a fixed-size
window and fixed overlap between consecutive chunks; the stride is the
window size minus the overlap. A page shorter than the window yields a
single chunk equal to the full page text. -/
def slidingChunks (window overlap : Nat) (text : String) : List String :=
  slideFrom window (window - overlap) text 0 (text.length + 1)

/-- Chunks of one page, each tagged with the source path and page number. -/
def chunkPage (window overlap : Nat) (src : String) (p : Page) : List Chunk :=
  (slidingChunks window overlap p.text).map
    (fun t => { text := t, source := src, page := p.page_number })

/-- Chunks of one document, in page order. -/
def chunkDocument (window overlap : Nat) (d : Document) : List Chunk :=
  d.pages.flatMap (chunkPage window overlap d.source)

/-- Chunks of the whole corpus, in document order: the split_documents
step of build_database.py line 53 applied to the loaded pages. -/
def chunkCorpus (window overlap : Nat) (docs : List Document) : List Chunk :=
  docs.flatMap (chunkDocument window overlap)

/-- The chunk_size configured in build_database.py line 49. -/
def chunk_size : Nat := 1000

/-- The chunk_overlap configured in build_database.py line 50. -/
def chunk_overlap : Nat := 200

/-- Error conditions of the build phase. -/
inductive BuildError where
  /-- No PDF file in the corpus directory (build_database.py line 26). -/
  | noDocumentsFound : String → BuildError
  /-- A failure of the external embedding capability. -/
  | embeddingFailure : String → BuildError
deriving DecidableEq, Repr

/-- An embedding vector, over the integers. -/
def Vec : Type := List Int
deriving DecidableEq, Repr

/-- The index contents written by the build: parallel chunk and vector
stores. -/
structure BuiltIndex where
  chunks : List Chunk
  vecs : List Vec

/-- The observable outcome of one run of build_database: what was saved
at the database path (none when nothing was written) and the result. -/
structure BuildOutcome where
  saved : Option BuiltIndex
  result : Except BuildError Unit

/-- Embeds every chunk text in order, failing as soon as the embedding
capability fails on one of them. -/
def embedAll (embed : String → Except BuildError Vec) : List Chunk → Except BuildError (List Vec)
  | [] => .ok []
  | c :: cs =>
    match embed c.text, embedAll embed cs with
    | .ok v, .ok vs => .ok (v :: vs)
    | .error e, _ => .error e
    | _, .error e => .error e

/-- build_database (build_database.py lines 13 to 83) over an abstracted
file system: the corpus is the list of PDF documents found in the corpus
directory and the embedding model is a capability. When no PDF file is
found the function reports the error and returns before any later step,
so nothing is saved; otherwise pages are split into chunks, embedded, the
index is built and only then saved. Any embedding failure propagates out
before the save step, so a failed build also saves nothing. -/
def build_database (embed : String → Except BuildError Vec)
    (corpus : List Document) : BuildOutcome :=
  if corpus = [] then
    { saved := none, result := .error (.noDocumentsFound "course_materials") }
  else
    let chunks := chunkCorpus chunk_size chunk_overlap corpus
    match embedAll embed chunks with
    | .error e => { saved := none, result := .error e }
    | .ok vecs => { saved := some { chunks := chunks, vecs := vecs }, result := .ok () }

/-- Squared Euclidean distance between two integer vectors. -/
def sqDist (u v : Vec) : Int :=
  (List.zipWith (fun a b => (a - b) * (a - b)) u v).sum

/-- One entry of the vector index: a chunk, its embedding and its
insertion position, which breaks distance ties. -/
structure Entry where
  chunk : Chunk
  vec : Vec
  idx : Nat
deriving DecidableEq, Repr

/-- Modelled from the spec: the strict preference order of the search,
smaller distance to the query first, ties broken by insertion order. -/
def entBetter (q : Vec) (a b : Entry) : Bool :=
  sqDist q a.vec < sqDist q b.vec ||
    (sqDist q a.vec == sqDist q b.vec && a.idx < b.idx)

/-- Selects the most preferred entry among a candidate and a list. -/
def pickMin (q : Vec) (best : Entry) : List Entry → Entry
  | [] => best
  | x :: rest => if entBetter q x best then pickMin q x rest else pickMin q best rest

/-- Modelled from the spec: nearest-neighbor search of the FAISS index,
returning at most k entries in preference order by repeated selection of
the closest remaining entry. -/
def searchTop (q : Vec) : Nat → List Entry → List Entry
  | 0, _ => []
  | _ + 1, [] => []
  | k + 1, x :: xs =>
    pickMin q x xs :: searchTop q k ((x :: xs).erase (pickMin q x xs))

/-- The k configured for the retriever in search_kwargs
(rag_system.py line 88). -/
def retrieve_k : Nat := 4

/-- The retrieved entry presented as a LangChain document: the chunk text
as page content, the chunk tags as metadata. -/
def entryToDoc (e : Entry) : RDoc :=
  { page_content := e.chunk.text
    metadata := { source := some e.chunk.source, page := some e.chunk.page } }

/-- The context block of the stuff chain: retrieved page contents joined
by blank lines. -/
def stuff_context (docs : List RDoc) : String :=
  String.intercalate "\n\n" (docs.map (fun d => d.page_content))

/-- The prompt template of setup_qa_chain (rag_system.py lines 45 to 55)
after substitution of the context and question variables. -/
def rag_prompt (context question : String) : String :=
  "You are a helpful Deep Learning course assistant.\n" ++
  "Answer the question using ONLY the context provided from course materials.\n" ++
  "If the answer is not in the context, say \"I cannot find this information in the course materials.\"\n" ++
  "Always cite the source when possible.\n\n" ++
  "Context from course materials:\n" ++ context ++ "\n\n" ++
  "Question: " ++ question ++ "\n\nDetailed Answer with citations:"

/-- The QA chain built by setup_qa_chain (rag_system.py lines 84 to 92):
the retriever embeds the question, asks the index for the top
retrieve_k entries, and the stuff chain formats them into the prompt and
invokes the generation capability once. FAISS search and the LLM call are
external capabilities; the search contract is modelled from the spec. -/
def mkChain (index : List Entry) (embed : String → Vec) (gen : String → String) : Chain :=
  fun question =>
    let docs := (searchTop (embed question) retrieve_k index).map entryToDoc
    { result := gen (rag_prompt (stuff_context docs) question)
      source_documents := docs }

/-- The configuration of an LLM handle as built in the source: the model
name and the output token cap. -/
structure LLMConfig where
  model_name : String
  max_tokens : Nat
deriving DecidableEq, Repr

/-- The LLM built in setup_qa_chain (rag_system.py lines 73 to 79). -/
def rag_llm : LLMConfig :=
  { model_name := "openai/gpt-3.5-turbo-instruct", max_tokens := 500 }

/-- The LLM built in the MCQGenerator constructor
(mcq_generator.py lines 23 to 29). -/
def mcq_llm : LLMConfig :=
  { model_name := "openai/gpt-3.5-turbo-instruct", max_tokens := 1000 }

/-- One multiple choice question as produced by the quiz generator. -/
structure MCQ where
  question : String
  options : List (String × String)
  correct_answer : String
  explanation : String
deriving DecidableEq, Repr

/-- MCQGenerator._create_fallback_quiz (mcq_generator.py lines 98 to 110):
the single fixed question repeated num_questions times by Python list
multiplication; only the topic appears in the question text. -/
def create_fallback_quiz (topic : String) (num_questions : Nat) : List MCQ :=
  List.replicate num_questions
    { question := "What is a key concept in " ++ topic ++ "?"
      options := [("A", "Option A"), ("B", "Option B"), ("C", "Option C"), ("D", "Option D")]
      correct_answer := "A"
      explanation := "This is a sample question. Try regenerating the quiz." }

/-- The full context assembled in generate_quiz (mcq_generator.py lines
39 to 43): the RAG answer, a blank line, and the source contents joined by
newlines. -/
def full_context (answer : String) (source_contents : List String) : String :=
  answer ++ "\n\n" ++ String.intercalate "\n" source_contents

/-- The MCQ prompt template (mcq_generator.py lines 46 to 72) after
substitution; literal braces of the JSON example are escaped. -/
def mcq_prompt (topic : String) (num_questions : Nat) (context : String) : String :=
  "Based on the following course content about " ++ topic ++ ", generate " ++
  toString num_questions ++ " multiple-choice questions.\n\n" ++
  "Course Content:\n" ++ context ++ "\n\n" ++
  "Generate EXACTLY " ++ toString num_questions ++ " questions in this JSON format:\n" ++
  "[\n  \x7b\n    \"question\": \"Question text here?\",\n    \"options\": \x7b\n" ++
  "      \"A\": \"First option\",\n      \"B\": \"Second option\", \n" ++
  "      \"C\": \"Third option\",\n      \"D\": \"Fourth option\"\n    \x7d,\n" ++
  "    \"correct_answer\": \"A\",\n" ++
  "    \"explanation\": \"Brief explanation why this is correct\"\n  \x7d\n]\n\n" ++
  "Requirements:\n- Test understanding, not just memorization\n" ++
  "- All options should be plausible\n- Include brief explanations\n" ++
  "- Focus on the key concepts\n\nGenerate the questions:"

/-- One invocation of the generation capability: which LLM configuration
it goes to and with which prompt. -/
structure LLMCall where
  config : LLMConfig
  prompt : String
deriving DecidableEq, Repr

/-- The LLM invocation made by generate_quiz (mcq_generator.py lines 81
to 87): the full context is sliced to 3000 characters before it is
substituted into the prompt, and the call goes to the MCQGenerator LLM. -/
def generate_quiz_call (topic : String) (num_questions : Nat)
    (answer : String) (source_contents : List String) : LLMCall :=
  { config := mcq_llm
    prompt := mcq_prompt topic num_questions
      (pyslice (full_context answer source_contents) 3000) }

/-- The tail of generate_quiz (mcq_generator.py lines 89 to 96): the LLM
response is decoded from JSON by the external json library, modelled as a
tagged decode result; a malformed response yields the fallback quiz
instead of propagating the decode failure. -/
def generate_quiz_result (decoded : Option (List MCQ)) (topic : String)
    (num_questions : Nat) : List MCQ :=
  match decoded with
  | some mcqs => mcqs
  | none => create_fallback_quiz topic num_questions

/-- Helper: ask fails with the not-initialized error whenever the qa_chain
field is still None. -/
theorem ask_qa_none (s : RAGState) (q : String) (h : s.qa_chain = none) :
    ask s q = .error .indexNotLoaded := by
  simp [ask, h]

/-- Helper: a fresh RAGSystem has no chain and no vector store. -/
theorem mkRAGSystem_fields (p : String) :
    (mkRAGSystem p).qa_chain = none ∧ (mkRAGSystem p).vectordb = none :=
  ⟨rfl, rfl⟩

/-- C3: for every question, calling ask before a Vector Index has been
loaded or built, that is while qa_chain is still None as in any state not
yet fully set up, fails with the IndexNotLoaded condition instead of
returning an answer; in particular this holds for a freshly constructed
system. -/
theorem ask_before_setup_fails (s : RAGState) (q : String) (p : String)
    (h : s.qa_chain = none) :
    ask s q = .error .indexNotLoaded ∧
    ask (mkRAGSystem p) q = .error .indexNotLoaded :=
  ⟨ask_qa_none s q h, ask_qa_none (mkRAGSystem p) q rfl⟩

/-- Witness for C3 at a concrete fresh system and question. -/
theorem ask_before_setup_fails_witness :
    (mkRAGSystem "vectordb").qa_chain = none ∧
    ask (mkRAGSystem "vectordb") "What is backpropagation?" = .error .indexNotLoaded :=
  ⟨rfl, (ask_before_setup_fails (mkRAGSystem "vectordb") "What is backpropagation?"
    "vectordb" rfl).1⟩

/-- C9: loading the vector database from a path at which nothing exists
fails with the IndexNotFound condition, and the condition carries and
reports the missing path. -/
theorem load_database_missing_path (fs : String → Bool)
    (loadIdx : String → Except RagError SavedIndex) (s : RAGState)
    (h : fs s.db_path = false) :
    (load_database fs loadIdx s).2 = .error (.indexNotFound s.db_path) ∧
    ∃ a b, (RagError.indexNotFound s.db_path).message = a ++ s.db_path ++ b := by
  refine ⟨by simp [load_database, h], ?_⟩
  exact ⟨"Database not found at ", ". Run build_database.py first!", rfl⟩

/-- Witness for C9 at a concrete empty file system. -/
theorem load_database_missing_path_witness :
    ((fun _ : String => false) (mkRAGSystem "vectordb").db_path) = false ∧
    (load_database (fun _ => false) (fun _ => .error .corruptIndex)
        (mkRAGSystem "vectordb")).2 = .error (.indexNotFound "vectordb") ∧
    ∃ a b, (RagError.indexNotFound "vectordb").message = a ++ "vectordb" ++ b := by
  have h := load_database_missing_path (fun _ => false)
    (fun _ => .error .corruptIndex) (mkRAGSystem "vectordb") rfl
  exact ⟨rfl, h.1, h.2⟩

/-- C10: when load_database fails because the database path does not
exist, the system state is returned unchanged, so on a state whose chain
was never set up any subsequent ask still fails with the not-initialized
condition rather than operating on partial state. -/
theorem load_database_failure_preserves_state (fs : String → Bool)
    (loadIdx : String → Except RagError SavedIndex) (s : RAGState) (q : String)
    (h : fs s.db_path = false) :
    (load_database fs loadIdx s).1 = s ∧
    (s.qa_chain = none →
      (load_database fs loadIdx s).1.vectordb = s.vectordb ∧
      ask (load_database fs loadIdx s).1 q = .error .indexNotLoaded) := by
  have h1 : (load_database fs loadIdx s).1 = s := by simp [load_database, h]
  refine ⟨h1, fun hq => ⟨by rw [h1], ?_⟩⟩
  rw [h1]
  exact ask_qa_none s q hq

/-- Witness for C10 at a concrete fresh system and empty file system. -/
theorem load_database_failure_preserves_state_witness :
    ((fun _ : String => false) (mkRAGSystem "vectordb").db_path) = false ∧
    (mkRAGSystem "vectordb").qa_chain = none ∧
    (load_database (fun _ => false) (fun _ => .error .corruptIndex)
        (mkRAGSystem "vectordb")).1 = mkRAGSystem "vectordb" ∧
    ask (load_database (fun _ => false) (fun _ => .error .corruptIndex)
        (mkRAGSystem "vectordb")).1 "Explain CNNs" = .error .indexNotLoaded := by
  have h := load_database_failure_preserves_state (fun _ => false)
    (fun _ => .error .corruptIndex) (mkRAGSystem "vectordb") "Explain CNNs" rfl
  exact ⟨rfl, rfl, h.1, (h.2 rfl).2⟩

/-- C4: for a corpus directory containing no PDF documents, the build
fails with the NoDocumentsFound condition naming the corpus directory and
nothing is saved; more generally no failed build run ever saves an index. -/
theorem build_empty_corpus_saves_nothing (embed : String → Except BuildError Vec)
    (corpus : List Document) :
    (corpus = [] →
      build_database embed corpus =
        { saved := none, result := .error (.noDocumentsFound "course_materials") }) ∧
    (∀ e, (build_database embed corpus).result = .error e →
      (build_database embed corpus).saved = none) := by
  constructor
  · intro h
    subst h
    rfl
  · intro e he
    unfold build_database at he ⊢
    by_cases hc : corpus = []
    · simp [hc]
    · simp only [hc, if_neg, if_false] at he ⊢
      cases hE : embedAll embed (chunkCorpus chunk_size chunk_overlap corpus) with
      | ok vecs => rw [hE] at he; simp at he
      | error e2 => rfl

/-- Witness for C4 at the empty corpus and a trivial embedder. -/
theorem build_empty_corpus_saves_nothing_witness :
    ([] : List Document) = [] ∧
    build_database (fun _ => .ok ([0] : List Int)) [] =
      { saved := none, result := .error (.noDocumentsFound "course_materials") } :=
  ⟨rfl, (build_empty_corpus_saves_nothing (fun _ => .ok ([0] : List Int)) []).1 rfl⟩

/-- The single fixed fallback question built by _create_fallback_quiz;
it depends only on the topic. -/
def fallback_mcq (topic : String) : MCQ :=
  { question := "What is a key concept in " ++ topic ++ "?"
    options := [("A", "Option A"), ("B", "Option B"), ("C", "Option C"), ("D", "Option D")]
    correct_answer := "A"
    explanation := "This is a sample question. Try regenerating the quiz." }

/-- C6: when the quiz response is not valid JSON, generate_quiz returns
the deterministic fallback payload of exactly num_questions copies of the
fixed question, whose content depends only on the topic, instead of
propagating the decode failure. -/
theorem quiz_fallback_on_malformed (topic : String) (n : Nat) :
    generate_quiz_result none topic n = create_fallback_quiz topic n ∧
    (generate_quiz_result none topic n).length = n ∧
    (∀ i, i < n → (generate_quiz_result none topic n).get? i = some (fallback_mcq topic)) := by
  refine ⟨rfl, ?_, ?_⟩
  · simp [generate_quiz_result, create_fallback_quiz]
  · intro i hi
    simp [generate_quiz_result, create_fallback_quiz, fallback_mcq,
      List.get?_eq_getElem?, List.getElem?_replicate, hi]

/-- Witness for C6 at a concrete topic and count. -/
theorem quiz_fallback_on_malformed_witness :
    generate_quiz_result none "Convolutional Neural Networks" 3 =
      create_fallback_quiz "Convolutional Neural Networks" 3 ∧
    (generate_quiz_result none "Convolutional Neural Networks" 3).length = 3 ∧
    (0 : Nat) < 3 ∧
    (generate_quiz_result none "Convolutional Neural Networks" 3).get? 0 =
      some (fallback_mcq "Convolutional Neural Networks") := by
  have h := quiz_fallback_on_malformed "Convolutional Neural Networks" 3
  exact ⟨h.1, h.2.1, by decide, h.2.2 0 (by decide)⟩

/-- Helper: string length equals the length of the character list. -/
theorem string_length_eq_data (s : String) : s.length = s.data.length := rfl

/-- Helper: a Python slice to n characters has length at most n. -/
theorem pyslice_length_le (s : String) (n : Nat) : (pyslice s n).length ≤ n := by
  rw [pyslice, string_length_eq_data]
  simp

/-- Counterexample to C5 as stated: the quiz composer invocation goes to
the MCQGenerator LLM, whose output cap is 1000 tokens, not 500. -/
theorem quiz_cap_not_500 :
    (generate_quiz_call "Convolutional Neural Networks" 5 "an answer" ["a source"]).config.max_tokens = 1000 ∧
    ¬ (generate_quiz_call "Convolutional Neural Networks" 5 "an answer" ["a source"]).config.max_tokens = 500 :=
  ⟨rfl, by decide⟩

/-- C5 as amended: the quiz composer slices its auxiliary context to at
most 3000 characters before substituting it into the prompt and invokes
generation with a 1000-token output cap, while the QA chain invokes
generation with a 500-token output cap. -/
theorem composer_bounds (topic : String) (n : Nat) (answer : String)
    (srcs : List String) :
    (generate_quiz_call topic n answer srcs).config = mcq_llm ∧
    mcq_llm.max_tokens = 1000 ∧
    rag_llm.max_tokens = 500 ∧
    (pyslice (full_context answer srcs) 3000).length ≤ 3000 ∧
    (generate_quiz_call topic n answer srcs).prompt =
      mcq_prompt topic n (pyslice (full_context answer srcs) 3000) :=
  ⟨rfl, rfl, rfl, pyslice_length_le (full_context answer srcs) 3000, rfl⟩

/-- A retrieved document used as a concrete chain input in examples:
three characters of text, a path-shaped source, page 2. -/
def cexDoc : RDoc :=
  { page_content := "abc"
    metadata := { source := some "course_materials/notes.pdf", page := some 2 } }

/-- A concrete chain returning one retrieved document. -/
def cexChain : Chain :=
  fun _ => { result := "generated answer", source_documents := [cexDoc] }

/-- A concrete state whose chain is set up with cexChain. -/
def cexState : RAGState :=
  { db_path := "vectordb", vectordb := none, qa_chain := some cexChain }

/-- Counterexample to C1 as stated: on a successful ask, a citation
content is the page text sliced to 300 characters with an ellipsis
appended, which differs from a plain 300-character truncation, and the
source field is the raw metadata path, not its basename. -/
theorem ask_citation_claim_fails :
    ask cexState "q" = .ok
      { question := "q"
        answer := "generated answer"
        sources := [{ content := "abc...", source := "course_materials/notes.pdf", page := some 2 }] } ∧
    ¬ ("abc..." = pyslice "abc" 300) ∧
    ¬ ("course_materials/notes.pdf" = basename "course_materials/notes.pdf") :=
  ⟨rfl, by decide, by decide⟩

/-- C1 as amended: on an initialized system, ask returns the generated
text plus exactly one citation per retrieved chunk; each citation content
is the chunk text sliced to 300 characters with an ellipsis marker
appended, its source is the source path recorded in the chunk metadata
defaulting to Unknown, and its page is the chunk page number defaulting
to the N/A marker. -/
theorem ask_citation_fields (s : RAGState) (ch : Chain) (q : String)
    (h : s.qa_chain = some ch) :
    ask s q = .ok
      { question := q
        answer := (ch q).result
        sources := (ch q).source_documents.map (fun d =>
          { content := pyslice d.page_content 300 ++ "..."
            source := d.metadata.source.getD "Unknown"
            page := d.metadata.page }) } ∧
    ((ch q).source_documents.map (fun d =>
      ({ content := pyslice d.page_content 300 ++ "..."
         source := d.metadata.source.getD "Unknown"
         page := d.metadata.page } : SourceInfo))).length =
      (ch q).source_documents.length := by
  refine ⟨?_, List.length_map _ _⟩
  simp only [ask, h]
  rfl

/-- Witness for C1 as amended, at the concrete state and chain. -/
theorem ask_citation_fields_witness :
    cexState.qa_chain = some cexChain ∧
    ask cexState "q" = .ok
      { question := "q"
        answer := (cexChain "q").result
        sources := (cexChain "q").source_documents.map (fun d =>
          { content := pyslice d.page_content 300 ++ "..."
            source := d.metadata.source.getD "Unknown"
            page := d.metadata.page }) } :=
  ⟨rfl, (ask_citation_fields cexState cexChain "q" rfl).1⟩

/-- Helper: unfolding of one sliding step that is not the last. -/
theorem slideFrom_step (w s : Nat) (t : String) (st f : Nat)
    (h : st + w < t.length) :
    slideFrom w s t st (f + 1) =
      pyslice (pydrop t st) w :: slideFrom w s t (st + s) f := by
  simp [slideFrom, h]

/-- Helper: unfolding of the last sliding step. -/
theorem slideFrom_last (w s : Nat) (t : String) (st f : Nat)
    (h : ¬ st + w < t.length) :
    slideFrom w s t st (f + 1) = [pyslice (pydrop t st) w] := by
  simp [slideFrom, h]

/-- Helper: dropping zero characters returns the string itself. -/
theorem pydrop_zero (s : String) : pydrop s 0 = s := rfl

/-- Helper: slicing to at least the full length returns the string. -/
theorem pyslice_of_le (s : String) (n : Nat) (h : s.length ≤ n) :
    pyslice s n = s := by
  rw [string_length_eq_data] at h
  simp [pyslice, List.take_of_length_le h]

/-- Helper: a page of 1500 characters is cut into the slices of
characters 0 to 1000 and 800 to 1500. -/
theorem slidingChunks_1500 (p : String) (h : p.length = 1500) :
    slidingChunks 1000 200 p = [pyslice p 1000, pyslice (pydrop p 800) 1000] := by
  rw [slidingChunks, h]
  rw [show (1000 - 200 : Nat) = 800 from rfl]
  rw [show (1500 + 1 : Nat) = 1500 + 1 from rfl]
  rw [slideFrom_step 1000 800 p 0 1500 (by rw [h]; norm_num)]
  rw [show (0 + 800 : Nat) = 800 from rfl]
  rw [show (1500 : Nat) = 1499 + 1 from rfl]
  rw [slideFrom_last 1000 800 p 800 1499 (by rw [h]; norm_num)]
  rw [pydrop_zero]

/-- Helper: a page shorter than the window is one chunk, the full text. -/
theorem slidingChunks_short (window overlap : Nat) (p : String)
    (h : p.length ≤ window) :
    slidingChunks window overlap p = [p] := by
  rw [slidingChunks]
  rw [show p.length + 1 = p.length + 1 from rfl]
  rw [slideFrom_last window (window - overlap) p 0 p.length (by omega)]
  rw [pydrop_zero, pyslice_of_le p window h]

/-- C2: with window 1000 and overlap 200, a 2-page document whose first
page holds 1500 characters and whose second page holds 400 characters is
chunked into exactly 3 chunks: page 1 yields the spans of characters 0 to
1000 and 800 to 1500, and page 2, shorter than the window, yields one
chunk equal to the full page text. -/
theorem chunk_two_page_scenario (src p1 p2 : String)
    (h1 : p1.length = 1500) (h2 : p2.length = 400) :
    chunkDocument chunk_size chunk_overlap
        { source := src
          pages := [{ page_number := 1, text := p1 }, { page_number := 2, text := p2 }] } =
      [ { text := pyslice p1 1000, source := src, page := 1 },
        { text := pyslice (pydrop p1 800) 1000, source := src, page := 1 },
        { text := p2, source := src, page := 2 } ] ∧
    (chunkDocument chunk_size chunk_overlap
        { source := src
          pages := [{ page_number := 1, text := p1 }, { page_number := 2, text := p2 }] }).length = 3 := by
  have e1 : chunkDocument chunk_size chunk_overlap
      { source := src
        pages := [{ page_number := 1, text := p1 }, { page_number := 2, text := p2 }] } =
      [ { text := pyslice p1 1000, source := src, page := 1 },
        { text := pyslice (pydrop p1 800) 1000, source := src, page := 1 },
        { text := p2, source := src, page := 2 } ] := by
    rw [chunkDocument]
    rw [show chunk_size = 1000 from rfl, show chunk_overlap = 200 from rfl]
    simp only [List.flatMap_cons, List.flatMap_nil, List.append_nil]
    rw [chunkPage, chunkPage]
    rw [slidingChunks_1500 p1 h1]
    rw [slidingChunks_short 1000 200 p2 (by omega)]
    simp
  exact ⟨e1, by rw [e1]; rfl⟩

/-- A concrete 1500-character page text. -/
def page1500 : String := String.mk (List.replicate 1500 'a')

/-- A concrete 400-character page text. -/
def page400 : String := String.mk (List.replicate 400 'b')

/-- Witness for C2 at a concrete 2-page document. -/
theorem chunk_two_page_scenario_witness :
    page1500.length = 1500 ∧ page400.length = 400 ∧
    chunkDocument chunk_size chunk_overlap
        { source := "course_materials/dl.pdf"
          pages := [{ page_number := 1, text := page1500 },
                    { page_number := 2, text := page400 }] } =
      [ { text := pyslice page1500 1000, source := "course_materials/dl.pdf", page := 1 },
        { text := pyslice (pydrop page1500 800) 1000, source := "course_materials/dl.pdf", page := 1 },
        { text := page400, source := "course_materials/dl.pdf", page := 2 } ] := by
  have hl1 : page1500.length = 1500 := by
    show (List.replicate 1500 'a').length = 1500
    rw [List.length_replicate]
  have hl2 : page400.length = 400 := by
    show (List.replicate 400 'b').length = 400
    rw [List.length_replicate]
  exact ⟨hl1, hl2,
    (chunk_two_page_scenario "course_materials/dl.pdf" page1500 page400 hl1 hl2).1⟩

/-- C7: ingestion and chunking are deterministic: two runs on identical
input corpora produce identical chunk sequences, with the same chunk
count, the same chunk texts in the same order, and the same page and
source tags. -/
theorem chunking_deterministic (d1 d2 : List Document) (h : d1 = d2) :
    chunkCorpus chunk_size chunk_overlap d1 = chunkCorpus chunk_size chunk_overlap d2 ∧
    (chunkCorpus chunk_size chunk_overlap d1).length =
      (chunkCorpus chunk_size chunk_overlap d2).length ∧
    (chunkCorpus chunk_size chunk_overlap d1).map Chunk.text =
      (chunkCorpus chunk_size chunk_overlap d2).map Chunk.text ∧
    (chunkCorpus chunk_size chunk_overlap d1).map Chunk.page =
      (chunkCorpus chunk_size chunk_overlap d2).map Chunk.page ∧
    (chunkCorpus chunk_size chunk_overlap d1).map Chunk.source =
      (chunkCorpus chunk_size chunk_overlap d2).map Chunk.source := by
  subst h
  exact ⟨rfl, rfl, rfl, rfl, rfl⟩

/-- A small concrete corpus used as a determinism witness. -/
def wCorpus : List Document :=
  [{ source := "course_materials/dl.pdf"
     pages := [{ page_number := 1, text := "Backpropagation computes gradients via the chain rule..." }] }]

/-- Witness for C7 at a concrete corpus given twice. -/
theorem chunking_deterministic_witness :
    wCorpus = wCorpus ∧
    chunkCorpus chunk_size chunk_overlap wCorpus = chunkCorpus chunk_size chunk_overlap wCorpus ∧
    (chunkCorpus chunk_size chunk_overlap wCorpus).map Chunk.text =
      (chunkCorpus chunk_size chunk_overlap wCorpus).map Chunk.text :=
  ⟨rfl, (chunking_deterministic wCorpus wCorpus rfl).1,
    (chunking_deterministic wCorpus wCorpus rfl).2.2.1⟩

/-- Helper: the selected entry is one of the candidates. -/
theorem pickMin_mem (q : Vec) (b : Entry) (l : List Entry) :
    pickMin q b l ∈ b :: l := by
  induction l generalizing b with
  | nil => simp [pickMin]
  | cons x xs ih =>
    rw [pickMin]
    by_cases hc : entBetter q x b
    · simp only [hc, if_pos]
      have h := ih x
      simp only [List.mem_cons] at h ⊢
      tauto
    · simp only [hc, if_neg, Bool.false_eq_true, not_false_eq_true]
      have h := ih b
      simp only [List.mem_cons] at h ⊢
      tauto

/-- Helper: a preferred entry is at most as distant from the query. -/
theorem entBetter_dist_le (q : Vec) (a b : Entry) (h : entBetter q a b = true) :
    sqDist q a.vec ≤ sqDist q b.vec := by
  simp only [entBetter, Bool.or_eq_true, Bool.and_eq_true, decide_eq_true_eq,
    beq_iff_eq] at h
  rcases h with h | ⟨h, _⟩
  · exact le_of_lt h
  · exact le_of_eq h

/-- Helper: a non-preferred entry is at least as distant from the query. -/
theorem not_entBetter_dist_le (q : Vec) (a b : Entry) (h : ¬ entBetter q a b = true) :
    sqDist q b.vec ≤ sqDist q a.vec := by
  simp only [entBetter, Bool.or_eq_true, Bool.and_eq_true, decide_eq_true_eq,
    beq_iff_eq, not_or, not_and] at h
  exact le_of_not_lt h.1

/-- Helper: the selected entry minimizes the distance to the query over
all candidates. -/
theorem pickMin_dist_le (q : Vec) (b : Entry) (l : List Entry) :
    ∀ z ∈ b :: l, sqDist q (pickMin q b l).vec ≤ sqDist q z.vec := by
  induction l generalizing b with
  | nil =>
    intro z hz
    simp only [List.mem_singleton] at hz
    subst hz
    exact le_of_eq rfl
  | cons x xs ih =>
    intro z hz
    rw [pickMin]
    simp only [List.mem_cons] at hz
    by_cases hc : entBetter q x b
    · simp only [hc, if_pos]
      rcases hz with hz | hz | hz
      · rw [hz]
        exact le_trans (ih x x (by simp)) (entBetter_dist_le q x b hc)
      · rw [hz]
        exact ih x x (by simp)
      · exact ih x z (by simp [hz])
    · simp only [hc, if_neg, Bool.false_eq_true, not_false_eq_true]
      rcases hz with hz | hz | hz
      · rw [hz]
        exact ih b b (by simp)
      · rw [hz]
        exact le_trans (ih b b (by simp)) (not_entBetter_dist_le q x b hc)
      · exact ih b z (by simp [hz])

/-- Helper: when one entry is strictly nearest the query among the
candidates, the selection picks exactly that entry. -/
theorem pickMin_eq_of_strict (q : Vec) (x : Entry) (xs : List Entry) (e : Entry)
    (he : e ∈ x :: xs)
    (hmin : ∀ z ∈ x :: xs, z ≠ e → sqDist q e.vec < sqDist q z.vec) :
    pickMin q x xs = e := by
  by_cases h : pickMin q x xs = e
  · exact h
  · have h1 := hmin _ (pickMin_mem q x xs) h
    have h2 := pickMin_dist_le q x xs e he
    exact absurd h1 (not_lt.mpr h2)

/-- Helper: the search returns at most k entries. -/
theorem searchTop_length_le (q : Vec) (k : Nat) (l : List Entry) :
    (searchTop q k l).length ≤ k := by
  induction k generalizing l with
  | zero => simp [searchTop]
  | succ k ih =>
    cases l with
    | nil => simp [searchTop]
    | cons x xs =>
      rw [searchTop]
      simpa using ih ((x :: xs).erase (pickMin q x xs))

/-- C8: the retriever is configured with k equal to 4, so on a system
whose chain is the retrieval chain every successful ask carries at most 4
source citations, and an entry whose embedding is strictly nearest the
query embedding appears among the top-4 retrieved entries. -/
theorem retriever_top4 (index : List Entry) (embed : String → Vec)
    (gen : String → String) (s : RAGState) (q : String) (e : Entry)
    (h : s.qa_chain = some (mkChain index embed gen))
    (he : e ∈ index)
    (hmin : ∀ x ∈ index, x ≠ e → sqDist (embed q) e.vec < sqDist (embed q) x.vec) :
    retrieve_k = 4 ∧
    ask s q = .ok
      { question := q
        answer := (mkChain index embed gen q).result
        sources := (mkChain index embed gen q).source_documents.map mkSourceInfo } ∧
    ((mkChain index embed gen q).source_documents.map mkSourceInfo).length ≤ 4 ∧
    e.chunk ∈ (searchTop (embed q) retrieve_k index).map Entry.chunk := by
  refine ⟨rfl, ?_, ?_, ?_⟩
  · simp only [ask, h]
  · show (((searchTop (embed q) retrieve_k index).map entryToDoc).map mkSourceInfo).length ≤ 4
    rw [List.length_map, List.length_map]
    exact searchTop_length_le (embed q) retrieve_k index
  · cases index with
    | nil => cases he
    | cons x xs =>
      rw [show retrieve_k = 3 + 1 from rfl]
      rw [searchTop]
      rw [pickMin_eq_of_strict (embed q) x xs e he hmin]
      simp

/-- The concrete nearest entry of the witness index. -/
def wEntry : Entry :=
  { chunk := { text := "Backpropagation computes gradients via the chain rule..."
               source := "course_materials/dl.pdf", page := 3 }
    vec := [0], idx := 0 }

/-- A concrete farther entry of the witness index. -/
def wOther : Entry :=
  { chunk := { text := "Convolutional networks apply learned filters..."
               source := "course_materials/dl.pdf", page := 7 }
    vec := [5], idx := 1 }

/-- The concrete witness index. -/
def wIndex : List Entry := [wEntry, wOther]

/-- A concrete embedding capability placing the query at the origin. -/
def wEmbed : String → Vec := fun _ => [0]

/-- A concrete generation capability. -/
def wGen : String → String := fun _ => "an answer"

/-- A concrete state whose chain retrieves from the witness index. -/
def wAskState : RAGState :=
  { db_path := "vectordb", vectordb := none
    qa_chain := some (mkChain wIndex wEmbed wGen) }

/-- Witness for C8 at the concrete index, query and nearest entry. -/
theorem retriever_top4_witness :
    wAskState.qa_chain = some (mkChain wIndex wEmbed wGen) ∧
    wEntry ∈ wIndex ∧
    retrieve_k = 4 ∧
    ((mkChain wIndex wEmbed wGen "What is backpropagation?").source_documents.map mkSourceInfo).length ≤ 4 ∧
    wEntry.chunk ∈ (searchTop (wEmbed "What is backpropagation?") retrieve_k wIndex).map Entry.chunk := by
  have hmin : ∀ x ∈ wIndex, x ≠ wEntry →
      sqDist (wEmbed "What is backpropagation?") wEntry.vec <
        sqDist (wEmbed "What is backpropagation?") x.vec := by
    intro x hx hne
    rcases List.mem_cons.mp hx with h1 | h1
    · exact absurd h1 hne
    · rw [List.mem_singleton.mp h1]
      decide
  have h := retriever_top4 wIndex wEmbed wGen wAskState "What is backpropagation?" wEntry
    rfl (List.mem_cons_self _ _) hmin
  exact ⟨rfl, List.mem_cons_self _ _, h.1, h.2.2.1, h.2.2.2⟩
